import Mathlib

/-
Shallow embedding of src/scripts/clearml_wrapper.py (repository NJ-Labs/clearpipe).

The wrapper is a CLI around the ClearML SDK. The SDK itself is external; it is
modelled as an oracle record whose operations either return a value or raise an
exception (modelled as Except String, the String being the Python str(e) of the
exception). Python dict envelopes are modelled as JSON-like values (JVal), the
filesystem as a finite association of path strings to file or directory trees,
and standard output as a list of print events.
-/

namespace Clearpipe

/-- JSON-like values: the model of the Python dicts, lists, strings, numbers and
booleans that the wrapper builds and dumps. Objects keep field order, as Python
dicts do. -/
inductive JVal where
  | null : JVal
  | bool (b : Bool) : JVal
  | num (n : Int) : JVal
  | str (s : String) : JVal
  | arr (xs : List JVal) : JVal
  | obj (fields : List (String × JVal)) : JVal

/-- First value bound to key k in an association list, as Python dict lookup. -/
def assocGet : List (String × JVal) → String → Option JVal
  | [], _ => none
  | (k, v) :: rest, key => if k == key then some v else assocGet rest key

/-- Field lookup on a JSON object; none on non-objects and missing keys,
modelling dict.get with default None. -/
def getField (v : JVal) (k : String) : Option JVal :=
  match v with
  | JVal.obj fields => assocGet fields k
  | _ => none

/-- Field lookup with a default, modelling Python dict.get(key, default). -/
def getFieldD (v : JVal) (k : String) (d : JVal) : JVal :=
  match getField v k with
  | some x => x
  | none => d

/-- The keys of a JSON object, in order. -/
def objKeys : JVal → List String
  | JVal.obj fields => fields.map Prod.fst
  | _ => []

/-- Python truthiness of a JSON value, used by main for the exit code
(0 if result.get of success is truthy else 1). -/
def jTruthy : JVal → Bool
  | JVal.null => false
  | JVal.bool b => b
  | JVal.num n => n != 0
  | JVal.str s => !s.isEmpty
  | JVal.arr xs => !xs.isEmpty
  | JVal.obj fields => !fields.isEmpty

/-- A node of the modelled filesystem: a regular file with a byte size, a
directory with named children, or something that exists but is neither a
regular file nor a directory (Path.exists true, is_file and is_dir false). -/
inductive FSNode where
  | file (size : Nat) : FSNode
  | dir (entries : List (String × FSNode)) : FSNode
  | other : FSNode

mutual

/-- The regular files found recursively under a node, as pairs of relative path
and byte size: the model of iterating path.rglob filtered by is_file. The
traversal visits entries in list order, descending into subdirectories in
place; only the set of files and their sizes matter to the claims. -/
def FSNode.rglob : FSNode → List (String × Nat)
  | FSNode.file _ => []
  | FSNode.other => []
  | FSNode.dir entries => rglobEntries entries

/-- Helper for FSNode.rglob: files under a list of directory entries. -/
def rglobEntries : List (String × FSNode) → List (String × Nat)
  | [] => []
  | (n, child) :: rest =>
    (match child with
     | FSNode.file sz => [(n, sz)]
     | FSNode.other => []
     | FSNode.dir es => (rglobEntries es).map (fun q => (n ++ "/" ++ q.1, q.2)))
    ++ rglobEntries rest

end

/-- The filesystem visible to one invocation: which absolute path strings exist
and what they are. -/
def FS := List (String × FSNode)

/-- Resolve a path string against the modelled filesystem; none means
Path.exists is false. -/
def fsLookup : FS → String → Option FSNode
  | [], _ => none
  | (p, node) :: rest, q => if p == q then some node else fsLookup rest q

/-- Python falsiness of an optional string argument: None or the empty
string. -/
def falsyS : Option String → Bool
  | none => true
  | some s => s.isEmpty

/-- Python falsiness of an optional list argument: None or the empty list. -/
def falsyL : Option (List String) → Bool
  | none => true
  | some l => l.isEmpty

/-- Python (x or d) on an optional string. -/
def orDefaultS (o : Option String) (d : String) : String :=
  match o with
  | none => d
  | some s => if s.isEmpty then d else s

/-- Python (x or []) on an optional list of strings. -/
def orDefaultL (o : Option (List String)) : List String :=
  match o with
  | none => []
  | some l => l

/-- The SDK object returned by Dataset.create and Dataset.get: the attributes
of it that the wrapper reads. getFileSize is an optional method, matching the
hasattr check in get_dataset_info. -/
structure DatasetHandle where
  id : String
  name : String
  project : String
  tags : List String
  isFinal : Bool
  getFileSize : Option (String → Int)

/-- One SDK operation as it appears in the call trace of an invocation.
listDatasetsOp records the arguments the wrapper passed. -/
inductive SdkOp where
  | createOp : SdkOp
  | getByIdOp : SdkOp
  | getByNameOp : SdkOp
  | listDatasetsOp (project : Option String) (tags : Option (List String))
      (onlyCompleted : Bool) : SdkOp
  | addFilesOp (path : String) : SdkOp
  | uploadOp : SdkOp
  | finalizeOp : SdkOp
  | getLocalCopyOp : SdkOp
  | listFilesOp : SdkOp

/-- The external SDK, modelled as an oracle: each operation the wrapper invokes
either returns a value or raises an exception carrying its str(e). Records
returned by list_datasets are Python dicts, modelled as association lists. -/
structure Oracle where
  create : String → String → List String → String → Option String →
    Option (List String) → Except String DatasetHandle
  getById : String → Except String (Option DatasetHandle)
  getByName : String → Option String → Except String (Option DatasetHandle)
  listDatasets : Option String → Option (List String) → Bool →
    Except String (List (List (String × JVal)))
  addFiles : String → Except String Unit
  upload : Except String Unit
  finalize : Except String Unit
  getLocalCopy : String → Except String String
  listFiles : Except String (List String)

/-- The failure envelope built in the wrapper: success false plus an error
string, and nothing else. -/
def failEnv (msg : String) : JVal :=
  JVal.obj [("success", JVal.bool false), ("error", JVal.str msg)]

/-- The final path component of a character list: the accumulator is reset at
every slash. -/
def lastComponentAux : List Char → List Char → List Char
  | [], acc => acc.reverse
  | c :: rest, acc =>
    if c == '/' then lastComponentAux rest [] else lastComponentAux rest (c :: acc)

/-- Python Path.name: the final component of a path string. -/
def pathName (p : String) : String :=
  String.mk (lastComponentAux p.data [])

/-- Sum of the sizes in an rglob listing. -/
def sumSizes (l : List (String × Nat)) : Nat :=
  l.foldl (fun a q => a + q.2) 0

/-- One element of the files_added list: a dict with path, name and size. -/
def mkFileRec (p n : String) (sz : Nat) : JVal :=
  JVal.obj [("path", JVal.str p), ("name", JVal.str n), ("size", JVal.num (Int.ofNat sz))]

/-- Outcome of the per-path file-staging loop shared by create_dataset and
create_version: completed with the accumulated records and total size, an
early return of an envelope (the path-does-not-exist case), or an exception
raised by an SDK call. -/
inductive StageRes where
  | done (files : List JVal) (total : Nat) : StageRes
  | ret (env : JVal) : StageRes
  | thrown (e : String) : StageRes

/-- The file-staging loop of create_dataset (lines 67 to 97): for each input
path in order, return a failure envelope if it does not exist; if it is a
regular file, call add_files and record its path, name and size; if it is a
directory, call add_files and record every regular file under it with its
path relative to the directory; otherwise skip it. Accumulates the
files_added list and total_size, and the trace of add_files calls. -/
def stage_create (ora : Oracle) (fs : FS) :
    List String → List JVal → Nat → StageRes × List SdkOp
  | [], acc, total => (StageRes.done acc total, [])
  | p :: rest, acc, total =>
    match fsLookup fs p with
    | none => (StageRes.ret (failEnv ("Path does not exist: " ++ p)), [])
    | some (FSNode.file sz) =>
      (match ora.addFiles p with
       | Except.error e => (StageRes.thrown e, [SdkOp.addFilesOp p])
       | Except.ok _ =>
         let r := stage_create ora fs rest (acc ++ [mkFileRec p (pathName p) sz]) (total + sz)
         (r.1, SdkOp.addFilesOp p :: r.2))
    | some (FSNode.dir es) =>
      (match ora.addFiles p with
       | Except.error e => (StageRes.thrown e, [SdkOp.addFilesOp p])
       | Except.ok _ =>
         let listing := FSNode.rglob (FSNode.dir es)
         let recs := listing.map (fun q => mkFileRec (p ++ "/" ++ q.1) q.1 q.2)
         let r := stage_create ora fs rest (acc ++ recs) (total + sumSizes listing)
         (r.1, SdkOp.addFilesOp p :: r.2))
    | some FSNode.other => stage_create ora fs rest acc total

/-- The file-staging loop of create_version (lines 164 to 192), transcribed
from its own occurrence in the source: textually the same loop as the one in
create_dataset, operating on new_dataset instead of dataset. -/
def stage_version (ora : Oracle) (fs : FS) :
    List String → List JVal → Nat → StageRes × List SdkOp
  | [], acc, total => (StageRes.done acc total, [])
  | p :: rest, acc, total =>
    match fsLookup fs p with
    | none => (StageRes.ret (failEnv ("Path does not exist: " ++ p)), [])
    | some (FSNode.file sz) =>
      (match ora.addFiles p with
       | Except.error e => (StageRes.thrown e, [SdkOp.addFilesOp p])
       | Except.ok _ =>
         let r := stage_version ora fs rest (acc ++ [mkFileRec p (pathName p) sz]) (total + sz)
         (r.1, SdkOp.addFilesOp p :: r.2))
    | some (FSNode.dir es) =>
      (match ora.addFiles p with
       | Except.error e => (StageRes.thrown e, [SdkOp.addFilesOp p])
       | Except.ok _ =>
         let listing := FSNode.rglob (FSNode.dir es)
         let recs := listing.map (fun q => mkFileRec (p ++ "/" ++ q.1) q.1 q.2)
         let r := stage_version ora fs rest (acc ++ recs) (total + sumSizes listing)
         (r.1, SdkOp.addFilesOp p :: r.2))
    | some FSNode.other => stage_version ora fs rest acc total

/-- os.environ.get of CLEARML_WEB_HOST with its default: the stored value when
the variable is set (even to the empty string), the default otherwise. -/
def envGetD (o : Option String) : String :=
  match o with
  | none => "https://app.clear.ml"
  | some s => s

/-- The catch-all except block shared by the five actions: an ok body result is
returned as is, a raised exception becomes the two-field failure envelope. -/
def runCatch (r : Except String JVal × List SdkOp) : JVal × List SdkOp :=
  match r.1 with
  | Except.ok env => (env, r.2)
  | Except.error e => (failEnv e, r.2)

/-- The success envelope of create_dataset (lines 103 to 112). -/
def create_success_env (envWebHost : Option String) (dsId dsName dsProject : String)
    (files : List JVal) (total : Nat) : JVal :=
  JVal.obj
    [("success", JVal.bool true),
     ("datasetId", JVal.str dsId),
     ("datasetName", JVal.str dsName),
     ("datasetProject", JVal.str dsProject),
     ("filesAdded", JVal.num (Int.ofNat files.length)),
     ("totalSize", JVal.num (Int.ofNat total)),
     ("files", JVal.arr (files.take 20)),
     ("webUrl", JVal.str (envGetD envWebHost ++ "/datasets/" ++ dsId))]

/-- The try block of create_dataset (lines 53 to 112): create the dataset,
stage the input paths, upload, finalize, and build the success envelope.
Early returns inside the try block are ok results; raised exceptions are
error results. The second component is the trace of SDK calls made. -/
def create_dataset_body (ora : Oracle) (fs : FS) (envWebHost : Option String)
    (name : String) (project : Option String) (input_paths : Option (List String))
    (tags : Option (List String)) (description : Option String)
    (output_uri : Option String) : Except String JVal × List SdkOp :=
  match ora.create name (orDefaultS project "datasets") (orDefaultL tags)
      (orDefaultS description "Created by ClearPipe") output_uri none with
  | Except.error e => (Except.error e, [SdkOp.createOp])
  | Except.ok ds =>
    let st := if falsyL input_paths then (StageRes.done [] 0, ([] : List SdkOp))
              else stage_create ora fs (input_paths.getD []) [] 0
    match st.1 with
    | StageRes.ret env => (Except.ok env, SdkOp.createOp :: st.2)
    | StageRes.thrown e => (Except.error e, SdkOp.createOp :: st.2)
    | StageRes.done files total =>
      match ora.upload with
      | Except.error e => (Except.error e, SdkOp.createOp :: st.2 ++ [SdkOp.uploadOp])
      | Except.ok _ =>
        match ora.finalize with
        | Except.error e =>
          (Except.error e, SdkOp.createOp :: st.2 ++ [SdkOp.uploadOp, SdkOp.finalizeOp])
        | Except.ok _ =>
          (Except.ok (create_success_env envWebHost ds.id name
              (orDefaultS project "datasets") files total),
           SdkOp.createOp :: st.2 ++ [SdkOp.uploadOp, SdkOp.finalizeOp])

/-- create_dataset (lines 44 to 118): the try block wrapped in the blanket
except that converts any exception into the failure envelope. -/
def create_dataset (ora : Oracle) (fs : FS) (envWebHost : Option String)
    (name : String) (project : Option String) (input_paths : Option (List String))
    (tags : Option (List String)) (description : Option String)
    (output_uri : Option String) : JVal × List SdkOp :=
  runCatch (create_dataset_body ora fs envWebHost name project input_paths tags
    description output_uri)

/-- The success envelope of create_version (lines 198 to 208). -/
def version_success_env (envWebHost : Option String)
    (newId parentId newName newProject : String) (files : List JVal) (total : Nat) : JVal :=
  JVal.obj
    [("success", JVal.bool true),
     ("datasetId", JVal.str newId),
     ("parentId", JVal.str parentId),
     ("datasetName", JVal.str newName),
     ("datasetProject", JVal.str newProject),
     ("filesAdded", JVal.num (Int.ofNat files.length)),
     ("totalSize", JVal.num (Int.ofNat total)),
     ("files", JVal.arr (files.take 20)),
     ("webUrl", JVal.str (envGetD envWebHost ++ "/datasets/" ++ newId))]

/-- The part of create_version after the parent has been resolved
(lines 151 to 208): create the child dataset with the parent as its single
ancestor, stage the input paths, upload, finalize. -/
def create_version_with_parent (ora : Oracle) (fs : FS) (envWebHost : Option String)
    (pd : DatasetHandle) (input_paths : Option (List String))
    (tags : Option (List String)) (description : Option String) :
    Except String JVal × List SdkOp :=
  match ora.create pd.name pd.project (orDefaultL tags)
      (orDefaultS description "New version created by ClearPipe") none (some [pd.id]) with
  | Except.error e => (Except.error e, [SdkOp.createOp])
  | Except.ok nds =>
    let st := if falsyL input_paths then (StageRes.done [] 0, ([] : List SdkOp))
              else stage_version ora fs (input_paths.getD []) [] 0
    match st.1 with
    | StageRes.ret env => (Except.ok env, SdkOp.createOp :: st.2)
    | StageRes.thrown e => (Except.error e, SdkOp.createOp :: st.2)
    | StageRes.done files total =>
      match ora.upload with
      | Except.error e => (Except.error e, SdkOp.createOp :: st.2 ++ [SdkOp.uploadOp])
      | Except.ok _ =>
        match ora.finalize with
        | Except.error e =>
          (Except.error e, SdkOp.createOp :: st.2 ++ [SdkOp.uploadOp, SdkOp.finalizeOp])
        | Except.ok _ =>
          (Except.ok (version_success_env envWebHost nds.id pd.id nds.name nds.project
              files total),
           SdkOp.createOp :: st.2 ++ [SdkOp.uploadOp, SdkOp.finalizeOp])

/-- The try block of create_version (lines 130 to 208): resolve the parent by
id, or else by name, or return the missing-parent envelope; return the
not-found envelope when the lookup yields nothing; then continue with the
resolved parent. -/
def create_version_body (ora : Oracle) (fs : FS) (envWebHost : Option String)
    (parent_id parent_name parent_project : Option String)
    (input_paths : Option (List String)) (tags : Option (List String))
    (description : Option String) : Except String JVal × List SdkOp :=
  if falsyS parent_id = false then
    match ora.getById (parent_id.getD "") with
    | Except.error e => (Except.error e, [SdkOp.getByIdOp])
    | Except.ok none => (Except.ok (failEnv "Parent dataset not found"), [SdkOp.getByIdOp])
    | Except.ok (some pd) =>
      let r := create_version_with_parent ora fs envWebHost pd input_paths tags description
      (r.1, SdkOp.getByIdOp :: r.2)
  else if falsyS parent_name = false then
    match ora.getByName (parent_name.getD "") parent_project with
    | Except.error e => (Except.error e, [SdkOp.getByNameOp])
    | Except.ok none => (Except.ok (failEnv "Parent dataset not found"), [SdkOp.getByNameOp])
    | Except.ok (some pd) =>
      let r := create_version_with_parent ora fs envWebHost pd input_paths tags description
      (r.1, SdkOp.getByNameOp :: r.2)
  else
    (Except.ok (failEnv "Either parent_id or parent_name is required"), [])

/-- create_version (lines 121 to 214): the try block wrapped in the blanket
except. -/
def create_version (ora : Oracle) (fs : FS) (envWebHost : Option String)
    (parent_id parent_name parent_project : Option String)
    (input_paths : Option (List String)) (tags : Option (List String))
    (description : Option String) : JVal × List SdkOp :=
  runCatch (create_version_body ora fs envWebHost parent_id parent_name parent_project
    input_paths tags description)

/-- The part of download_dataset after the dataset has been resolved
(lines 245 to 268): choose the target directory, materialize a local copy,
walk it for downloaded files, and build the success envelope. -/
def download_with_dataset (ora : Oracle) (fs : FS) (cwd : String)
    (ds : DatasetHandle) (output_path : Option String) :
    Except String JVal × List SdkOp :=
  let target := orDefaultS output_path (cwd ++ "/data/downloaded/" ++ ds.name)
  match ora.getLocalCopy target with
  | Except.error e => (Except.error e, [SdkOp.getLocalCopyOp])
  | Except.ok localPath =>
    let files : List JVal :=
      match fsLookup fs localPath with
      | none => []
      | some node =>
        (FSNode.rglob node).map (fun q => mkFileRec (localPath ++ "/" ++ q.1) q.1 q.2)
    (Except.ok (JVal.obj
      [("success", JVal.bool true),
       ("datasetId", JVal.str ds.id),
       ("datasetName", JVal.str ds.name),
       ("localPath", JVal.str localPath),
       ("filesDownloaded", JVal.num (Int.ofNat files.length)),
       ("files", JVal.arr (files.take 20))]),
     [SdkOp.getLocalCopyOp])

/-- The try block of download_dataset (lines 224 to 268): resolve the dataset
by id, or else by name, or return the missing-identifier envelope; return the
not-found envelope when the lookup yields nothing; then continue with the
resolved dataset. -/
def download_dataset_body (ora : Oracle) (fs : FS) (cwd : String)
    (dataset_id dataset_name dataset_project output_path : Option String) :
    Except String JVal × List SdkOp :=
  if falsyS dataset_id = false then
    match ora.getById (dataset_id.getD "") with
    | Except.error e => (Except.error e, [SdkOp.getByIdOp])
    | Except.ok none => (Except.ok (failEnv "Dataset not found"), [SdkOp.getByIdOp])
    | Except.ok (some ds) =>
      let r := download_with_dataset ora fs cwd ds output_path
      (r.1, SdkOp.getByIdOp :: r.2)
  else if falsyS dataset_name = false then
    match ora.getByName (dataset_name.getD "") dataset_project with
    | Except.error e => (Except.error e, [SdkOp.getByNameOp])
    | Except.ok none => (Except.ok (failEnv "Dataset not found"), [SdkOp.getByNameOp])
    | Except.ok (some ds) =>
      let r := download_with_dataset ora fs cwd ds output_path
      (r.1, SdkOp.getByNameOp :: r.2)
  else
    (Except.ok (failEnv "Either dataset_id or dataset_name is required"), [])

/-- download_dataset (lines 217 to 274): the try block wrapped in the blanket
except. -/
def download_dataset (ora : Oracle) (fs : FS) (cwd : String)
    (dataset_id dataset_name dataset_project output_path : Option String) :
    JVal × List SdkOp :=
  runCatch (download_dataset_body ora fs cwd dataset_id dataset_name dataset_project
    output_path)

/-- dict.get on an SDK listing record, None when the key is absent. -/
def dGet (ds : List (String × JVal)) (k : String) : JVal :=
  match assocGet ds k with
  | some v => v
  | none => JVal.null

/-- dict.get with an explicit default on an SDK listing record. -/
def dGetD (ds : List (String × JVal)) (k : String) (d : JVal) : JVal :=
  match assocGet ds k with
  | some v => v
  | none => d

/-- The projection applied to each record returned by the SDK listing call
(lines 291 to 299): exactly the six fields, tags defaulting to the empty
list. -/
def projectDsInfo (ds : List (String × JVal)) : JVal :=
  JVal.obj
    [("id", dGet ds "id"),
     ("name", dGet ds "name"),
     ("project", dGet ds "project"),
     ("tags", dGetD ds "tags" (JVal.arr [])),
     ("created", dGet ds "created"),
     ("version", dGet ds "version")]

/-- The try block of list_datasets (lines 283 to 305). -/
def list_datasets_body (ora : Oracle) (project : Option String)
    (tags : Option (List String)) (only_completed : Bool) :
    Except String JVal × List SdkOp :=
  match ora.listDatasets project tags only_completed with
  | Except.error e => (Except.error e, [SdkOp.listDatasetsOp project tags only_completed])
  | Except.ok records =>
    let dataset_list := records.map projectDsInfo
    (Except.ok (JVal.obj
      [("success", JVal.bool true),
       ("count", JVal.num (Int.ofNat dataset_list.length)),
       ("datasets", JVal.arr dataset_list)]),
     [SdkOp.listDatasetsOp project tags only_completed])

/-- list_datasets (lines 277 to 311): the try block wrapped in the blanket
except. -/
def list_datasets (ora : Oracle) (project : Option String)
    (tags : Option (List String)) (only_completed : Bool) : JVal × List SdkOp :=
  runCatch (list_datasets_body ora project tags only_completed)

/-- The part of get_dataset_info after the dataset has been resolved
(lines 340 to 359): list the files, keep the first 50 with per-entry size
where the handle offers get_file_size, and build the success envelope. -/
def info_with_dataset (ora : Oracle) (envWebHost : Option String)
    (ds : DatasetHandle) : Except String JVal × List SdkOp :=
  match ora.listFiles with
  | Except.error e => (Except.error e, [SdkOp.listFilesOp])
  | Except.ok entries =>
    let files := (entries.take 50).map (fun entry =>
      JVal.obj
        [("path", JVal.str entry),
         ("size", match ds.getFileSize with
                  | some f => JVal.num (f entry)
                  | none => JVal.null)])
    (Except.ok (JVal.obj
      [("success", JVal.bool true),
       ("datasetId", JVal.str ds.id),
       ("datasetName", JVal.str ds.name),
       ("project", JVal.str ds.project),
       ("tags", JVal.arr (ds.tags.map JVal.str)),
       ("fileCount", JVal.num (Int.ofNat entries.length)),
       ("files", JVal.arr files),
       ("isFinalized", JVal.bool ds.isFinal),
       ("webUrl", JVal.str (envGetD envWebHost ++ "/datasets/" ++ ds.id))]),
     [SdkOp.listFilesOp])

/-- The try block of get_dataset_info (lines 320 to 359): resolve the dataset
by id, or else by name, or return the missing-identifier envelope; return the
not-found envelope when the lookup yields nothing; then continue with the
resolved dataset. -/
def get_dataset_info_body (ora : Oracle) (envWebHost : Option String)
    (dataset_id dataset_name dataset_project : Option String) :
    Except String JVal × List SdkOp :=
  if falsyS dataset_id = false then
    match ora.getById (dataset_id.getD "") with
    | Except.error e => (Except.error e, [SdkOp.getByIdOp])
    | Except.ok none => (Except.ok (failEnv "Dataset not found"), [SdkOp.getByIdOp])
    | Except.ok (some ds) =>
      let r := info_with_dataset ora envWebHost ds
      (r.1, SdkOp.getByIdOp :: r.2)
  else if falsyS dataset_name = false then
    match ora.getByName (dataset_name.getD "") dataset_project with
    | Except.error e => (Except.error e, [SdkOp.getByNameOp])
    | Except.ok none => (Except.ok (failEnv "Dataset not found"), [SdkOp.getByNameOp])
    | Except.ok (some ds) =>
      let r := info_with_dataset ora envWebHost ds
      (r.1, SdkOp.getByNameOp :: r.2)
  else
    (Except.ok (failEnv "Either dataset_id or dataset_name is required"), [])

/-- get_dataset_info (lines 314 to 365): the try block wrapped in the blanket
except. -/
def get_dataset_info (ora : Oracle) (envWebHost : Option String)
    (dataset_id dataset_name dataset_project : Option String) : JVal × List SdkOp :=
  runCatch (get_dataset_info_body ora envWebHost dataset_id dataset_name dataset_project)

/-- The parsed command line, as the argparse namespace built in main
(lines 378 to 414). accessKey and secretKey are plain strings because the
parser marks them required. -/
structure Args where
  action : String
  apiHost : String
  webHost : String
  filesHost : String
  accessKey : String
  secretKey : String
  datasetId : Option String
  datasetName : Option String
  datasetProject : Option String
  inputPaths : Option (List String)
  tags : Option (List String)
  description : Option String
  outputUri : Option String
  outputPath : Option String
  onlyCompleted : Bool

/-- The action dispatch of main (lines 426 to 479): pre-validate the
arguments the selected action requires, then call the action function.
setup_credentials has set CLEARML_WEB_HOST to args.webHost, so the actions
see that value in the environment. -/
def dispatch (ora : Oracle) (fs : FS) (cwd : String) (args : Args) : JVal × List SdkOp :=
  if args.action == "create" then
    if falsyS args.datasetName then
      (failEnv "Dataset name is required for create action", [])
    else if falsyL args.inputPaths then
      (failEnv "At least one input path is required for create action", [])
    else
      create_dataset ora fs (some args.webHost) (args.datasetName.getD "")
        args.datasetProject args.inputPaths args.tags args.description args.outputUri
  else if args.action == "version" then
    if falsyS args.datasetId && falsyS args.datasetName then
      (failEnv "Dataset ID or name is required for version action", [])
    else if falsyL args.inputPaths then
      (failEnv "At least one input path is required for version action", [])
    else
      create_version ora fs (some args.webHost) args.datasetId args.datasetName
        args.datasetProject args.inputPaths args.tags args.description
  else if args.action == "download" then
    download_dataset ora fs cwd args.datasetId args.datasetName args.datasetProject
      args.outputPath
  else if args.action == "list" then
    list_datasets ora args.datasetProject args.tags args.onlyCompleted
  else if args.action == "info" then
    get_dataset_info ora (some args.webHost) args.datasetId args.datasetName
      args.datasetProject
  else
    (failEnv ("Unknown action: " ++ args.action), [])

/-- One print event on standard output. markerStart and markerEnd are the two
literal marker lines; jsonBlock is the pretty-printed dump of an envelope
between them; jsonLine is the compact dump printed on the path where the SDK
is unavailable; helpText is the argparse help output. A dumped JSON object
never renders a line equal to a bare marker line, since every line of the
dump carries a brace, bracket or quoted text. -/
inductive OutLine where
  | markerStart : OutLine
  | markerEnd : OutLine
  | jsonBlock (v : JVal) : OutLine
  | jsonLine (v : JVal) : OutLine
  | helpText : OutLine

/-- main after argument parsing and credential setup (lines 416 to 486):
dispatch the action, print the start marker, the envelope and the end marker,
and exit 0 when result.get of success is truthy, 1 otherwise. -/
def mainWithArgs (ora : Oracle) (fs : FS) (cwd : String) (args : Args) :
    List OutLine × Nat × List SdkOp :=
  let r := dispatch ora fs cwd args
  ([OutLine.markerStart, OutLine.jsonBlock r.1, OutLine.markerEnd],
   (if jTruthy (getFieldD r.1 "success" JVal.null) then 0 else 1),
   r.2)

/-- Outcome of argument parsing: a parsed namespace, an argparse error (usage
printed to standard error, exit code 2), or the help path (help printed to
standard output, exit code 0). -/
inductive ParseOutcome where
  | ok (args : Args) : ParseOutcome
  | error : ParseOutcome
  | help : ParseOutcome

/-- Parser state while scanning the command line. -/
structure ParseState where
  action : Option String
  apiHost : String
  webHost : String
  filesHost : String
  accessKey : Option String
  secretKey : Option String
  datasetId : Option String
  datasetName : Option String
  datasetProject : Option String
  inputPaths : Option (List String)
  tags : Option (List String)
  description : Option String
  outputUri : Option String
  outputPath : Option String
  onlyCompleted : Bool

/-- The initial parser state: the literal defaults of the argparse
configuration. The only-completed flag is store_true with default True, so it
starts out true. -/
def initParseState : ParseState :=
  ⟨none, "https://api.clear.ml", "https://app.clear.ml", "https://files.clear.ml",
   none, none, none, none, none, none, none, none, none, none, true⟩

/-- Whether a token is option-like: it starts with a dash. -/
def startsWithDash (s : String) : Bool :=
  match s.data with
  | [] => false
  | c :: _ => c == '-'

/-- The value-taking options declared by the parser. -/
def isValueFlag (t : String) : Bool :=
  t == "--api-host" || t == "--web-host" || t == "--files-host" ||
  t == "--access-key" || t == "--secret-key" || t == "--dataset-id" ||
  t == "--dataset-name" || t == "--dataset-project" || t == "--input-path" ||
  t == "--tags" || t == "--description" || t == "--output-uri" ||
  t == "--output-path"

/-- Store a value-taking option into the parser state. The input-path and
tags options have append action and accumulate. -/
def setFlag (st : ParseState) (flag v : String) : ParseState :=
  if flag == "--api-host" then { st with apiHost := v }
  else if flag == "--web-host" then { st with webHost := v }
  else if flag == "--files-host" then { st with filesHost := v }
  else if flag == "--access-key" then { st with accessKey := some v }
  else if flag == "--secret-key" then { st with secretKey := some v }
  else if flag == "--dataset-id" then { st with datasetId := some v }
  else if flag == "--dataset-name" then { st with datasetName := some v }
  else if flag == "--dataset-project" then { st with datasetProject := some v }
  else if flag == "--input-path" then
    { st with inputPaths := some (st.inputPaths.getD [] ++ [v]) }
  else if flag == "--tags" then { st with tags := some (st.tags.getD [] ++ [v]) }
  else if flag == "--description" then { st with description := some v }
  else if flag == "--output-uri" then { st with outputUri := some v }
  else if flag == "--output-path" then { st with outputPath := some v }
  else st

/-- Scan the command line one token at a time, modelling the argparse
configuration of main (lines 378 to 414): the help option short-circuits; the
only-completed flag is store_true; a value-taking option consumes the next
token, refusing one that starts with a dash, as argparse refuses option-like
values (no option here accepts numbers); any other dash token is an unknown
option; the single positional must be one of the five action choices. At the
end the positional and the required access-key and secret-key options must
all be present. Option=value spellings and prefix abbreviation are not
modelled. -/
def parseLoop : List String → ParseState → ParseOutcome
  | [], st =>
    match st.action, st.accessKey, st.secretKey with
    | some a, some ak, some sk =>
      ParseOutcome.ok ⟨a, st.apiHost, st.webHost, st.filesHost, ak, sk,
        st.datasetId, st.datasetName, st.datasetProject, st.inputPaths, st.tags,
        st.description, st.outputUri, st.outputPath, st.onlyCompleted⟩
    | _, _, _ => ParseOutcome.error
  | t :: rest, st =>
    if t == "-h" || t == "--help" then ParseOutcome.help
    else if t == "--only-completed" then parseLoop rest { st with onlyCompleted := true }
    else if isValueFlag t then
      match rest with
      | [] => ParseOutcome.error
      | v :: rest2 =>
        if startsWithDash v then ParseOutcome.error
        else parseLoop rest2 (setFlag st t v)
    else if startsWithDash t then ParseOutcome.error
    else
      match st.action with
      | none =>
        if t == "create" || t == "version" || t == "download" || t == "list" ||
            t == "info" then
          parseLoop rest { st with action := some t }
        else ParseOutcome.error
      | some _ => ParseOutcome.error

/-- Parse a command line from the initial state. -/
def parseArgs (argv : List String) : ParseOutcome :=
  parseLoop argv initParseState

/-- The envelope printed when the ClearML import fails (lines 370 to 374). -/
def unavailableEnv : JVal :=
  JVal.obj
    [("success", JVal.bool false),
     ("error", JVal.str "ClearML SDK not installed. Install with: pip install clearml"),
     ("installCommand", JVal.str "pip install clearml")]

/-- One whole invocation of the program (main, lines 368 to 486): when the
SDK import failed, print the bare unavailable envelope and exit 1, without
touching the command line; otherwise parse the arguments and run the
dispatch, printing the envelope between the two marker lines. -/
def mainRun (clearmlAvailable : Bool) (ora : Oracle) (fs : FS) (cwd : String)
    (argv : List String) : List OutLine × Nat × List SdkOp :=
  if clearmlAvailable = false then
    ([OutLine.jsonLine unavailableEnv], 1, [])
  else
    match parseArgs argv with
    | ParseOutcome.help => ([OutLine.helpText], 0, [])
    | ParseOutcome.error => ([], 2, [])
    | ParseOutcome.ok args => mainWithArgs ora fs cwd args

/-- Number of occurrences of the start marker line in an output. -/
def countStart (ls : List OutLine) : Nat :=
  ls.foldl (fun n l => match l with | OutLine.markerStart => n + 1 | _ => n) 0

/-- Number of occurrences of the end marker line in an output. -/
def countEnd (ls : List OutLine) : Nat :=
  ls.foldl (fun n l => match l with | OutLine.markerEnd => n + 1 | _ => n) 0

/-- A dataset handle with fixed attributes, for concrete instantiations. -/
def handle0 : DatasetHandle :=
  ⟨"ds1", "set1", "proj1", [], true, none⟩

/-- An oracle on which every SDK operation succeeds with fixed values, for
concrete instantiations. -/
def ora0 : Oracle :=
  ⟨fun _ _ _ _ _ _ => Except.ok handle0,
   fun _ => Except.ok (some handle0),
   fun _ _ => Except.ok (some handle0),
   fun _ _ _ => Except.ok [],
   fun _ => Except.ok (),
   Except.ok (),
   Except.ok (),
   fun _ => Except.ok "/srv/copy",
   Except.ok []⟩

/-- Appending the empty string on the right is the identity. -/
theorem string_append_empty (s : String) : s ++ "" = s := by
  cases s with
  | mk d =>
    show String.mk (d ++ []) = String.mk d
    rw [List.append_nil]

/-- s contains sub as a substring. -/
def strContains (s sub : String) : Prop :=
  ∃ pre post, s = pre ++ sub ++ post

/-- Any string of the form pre ++ sub contains sub. -/
theorem strContains_of_append (pre sub : String) : strContains (pre ++ sub) sub :=
  ⟨pre, "", by rw [string_append_empty]⟩

/-- The two transcribed staging loops agree on every input. -/
theorem stage_loops_equal (ora : Oracle) (fs : FS) (paths : List String)
    (acc : List JVal) (total : Nat) :
    stage_version ora fs paths acc total = stage_create ora fs paths acc total := by
  induction paths generalizing acc total with
  | nil => rfl
  | cons p rest ih =>
    simp only [stage_create, stage_version]
    cases hl : fsLookup fs p with
    | none => rfl
    | some node =>
      cases node with
      | file sz =>
        cases ha : ora.addFiles p with
        | error e => rfl
        | ok u => simp [ih]
      | dir es =>
        cases ha : ora.addFiles p with
        | error e => rfl
        | ok u => simp [ih]
      | other => exact ih acc total

/-- C5: the per-path file-staging loop embedded in create_version is
extensionally equal to the one embedded in create_dataset: on every oracle,
filesystem, path list and accumulator they produce the same file records,
total size, early error outcome and SDK call trace. -/
theorem c5_staging_equal (ora : Oracle) (fs : FS) (paths : List String)
    (acc : List JVal) (total : Nat) :
    stage_version ora fs paths acc total = stage_create ora fs paths acc total :=
  stage_loops_equal ora fs paths acc total

/-- C9: when the SDK import failed, the whole invocation prints the bare
unavailable envelope, which carries success false and an installCommand
field, and exits with code 1; the command line is never examined, so the
behavior is identical for every argument vector. -/
theorem c9_unavailable_short_circuit (ora : Oracle) (fs : FS) (cwd : String)
    (argv : List String) :
    mainRun false ora fs cwd argv = ([OutLine.jsonLine unavailableEnv], 1, []) ∧
    getField unavailableEnv "success" = some (JVal.bool false) ∧
    getField unavailableEnv "installCommand" = some (JVal.str "pip install clearml") ∧
    (∀ argv2, mainRun false ora fs cwd argv = mainRun false ora fs cwd argv2) :=
  ⟨rfl, rfl, rfl, fun _ => rfl⟩

/-- C8: each of the five action functions wraps its try block in the blanket
except: whenever the body raises an exception e, the function returns the
envelope consisting of exactly success false and the stringified exception;
whenever the body returns normally, its envelope is passed through unchanged.
The action functions are total, so no exception ever reaches the caller. -/
theorem c8_blanket_catch :
    (∀ ora fs w n pr ip tg d u,
      (∀ e, (create_dataset_body ora fs w n pr ip tg d u).1 = Except.error e →
        (create_dataset ora fs w n pr ip tg d u).1 =
          JVal.obj [("success", JVal.bool false), ("error", JVal.str e)]) ∧
      (∀ env, (create_dataset_body ora fs w n pr ip tg d u).1 = Except.ok env →
        (create_dataset ora fs w n pr ip tg d u).1 = env)) ∧
    (∀ ora fs w pid pnm ppr ip tg d,
      (∀ e, (create_version_body ora fs w pid pnm ppr ip tg d).1 = Except.error e →
        (create_version ora fs w pid pnm ppr ip tg d).1 =
          JVal.obj [("success", JVal.bool false), ("error", JVal.str e)]) ∧
      (∀ env, (create_version_body ora fs w pid pnm ppr ip tg d).1 = Except.ok env →
        (create_version ora fs w pid pnm ppr ip tg d).1 = env)) ∧
    (∀ ora fs cwd di dn dp op,
      (∀ e, (download_dataset_body ora fs cwd di dn dp op).1 = Except.error e →
        (download_dataset ora fs cwd di dn dp op).1 =
          JVal.obj [("success", JVal.bool false), ("error", JVal.str e)]) ∧
      (∀ env, (download_dataset_body ora fs cwd di dn dp op).1 = Except.ok env →
        (download_dataset ora fs cwd di dn dp op).1 = env)) ∧
    (∀ ora pr tg oc,
      (∀ e, (list_datasets_body ora pr tg oc).1 = Except.error e →
        (list_datasets ora pr tg oc).1 =
          JVal.obj [("success", JVal.bool false), ("error", JVal.str e)]) ∧
      (∀ env, (list_datasets_body ora pr tg oc).1 = Except.ok env →
        (list_datasets ora pr tg oc).1 = env)) ∧
    (∀ ora w di dn dp,
      (∀ e, (get_dataset_info_body ora w di dn dp).1 = Except.error e →
        (get_dataset_info ora w di dn dp).1 =
          JVal.obj [("success", JVal.bool false), ("error", JVal.str e)]) ∧
      (∀ env, (get_dataset_info_body ora w di dn dp).1 = Except.ok env →
        (get_dataset_info ora w di dn dp).1 = env)) := by
  refine ⟨fun ora fs w n pr ip tg d u => ⟨fun e h => ?_, fun env h => ?_⟩,
    fun ora fs w pid pnm ppr ip tg d => ⟨fun e h => ?_, fun env h => ?_⟩,
    fun ora fs cwd di dn dp op => ⟨fun e h => ?_, fun env h => ?_⟩,
    fun ora pr tg oc => ⟨fun e h => ?_, fun env h => ?_⟩,
    fun ora w di dn dp => ⟨fun e h => ?_, fun env h => ?_⟩⟩ <;>
  · first
    | simp [create_dataset, runCatch, h, failEnv]
    | simp [create_version, runCatch, h, failEnv]
    | simp [download_dataset, runCatch, h, failEnv]
    | simp [list_datasets, runCatch, h, failEnv]
    | simp [get_dataset_info, runCatch, h, failEnv]

/-- An oracle on which every SDK operation raises an exception whose
stringification is boom. -/
def oraBoom : Oracle :=
  ⟨fun _ _ _ _ _ _ => Except.error "boom",
   fun _ => Except.error "boom",
   fun _ _ => Except.error "boom",
   fun _ _ _ => Except.error "boom",
   fun _ => Except.error "boom",
   Except.error "boom",
   Except.error "boom",
   fun _ => Except.error "boom",
   Except.error "boom"⟩

/-- Instantiation of the blanket-catch theorem: on an oracle whose listing
call raises, the list action returns exactly the two-field failure
envelope. -/
theorem c8_blanket_catch_witness :
    (list_datasets oraBoom none none true).1 =
      JVal.obj [("success", JVal.bool false), ("error", JVal.str "boom")] :=
  (c8_blanket_catch.2.2.2.1 oraBoom none none true).1 "boom" rfl

/-- C7: on every record list the SDK listing call returns, the list action
reports success, a count equal to the length of the returned datasets array,
and projects every record to exactly the six fields id, name, project, tags,
created and version, with tags defaulting to the empty list when absent. -/
theorem c7_list_projection (ora : Oracle) (project : Option String)
    (tags : Option (List String)) (oc : Bool)
    (records : List (List (String × JVal)))
    (h : ora.listDatasets project tags oc = Except.ok records) :
    getField (list_datasets ora project tags oc).1 "success" = some (JVal.bool true) ∧
    getField (list_datasets ora project tags oc).1 "datasets" =
      some (JVal.arr (records.map projectDsInfo)) ∧
    getField (list_datasets ora project tags oc).1 "count" =
      some (JVal.num (Int.ofNat (records.map projectDsInfo).length)) ∧
    (records.map projectDsInfo).length = records.length ∧
    (∀ r, objKeys (projectDsInfo r) =
      ["id", "name", "project", "tags", "created", "version"]) ∧
    (∀ r, getField (projectDsInfo r) "tags" = some (dGetD r "tags" (JVal.arr []))) ∧
    (∀ r, assocGet r "tags" = none →
      getField (projectDsInfo r) "tags" = some (JVal.arr [])) := by
  refine ⟨?_, ?_, ?_, ?_, fun r => rfl, fun r => rfl, ?_⟩
  · simp [list_datasets, list_datasets_body, runCatch, h, getField, assocGet]
  · simp [list_datasets, list_datasets_body, runCatch, h, getField, assocGet]
  · simp [list_datasets, list_datasets_body, runCatch, h, getField, assocGet]
  · simp [list_datasets, list_datasets_body, runCatch, h, getField, assocGet]
  · intro r hr
    simp [projectDsInfo, getField, assocGet, dGetD, hr]

/-- Instantiation of the list projection theorem on a record list with one
record that has no tags key. -/
theorem c7_list_projection_witness :
    getField (list_datasets
      (⟨ora0.create, ora0.getById, ora0.getByName,
        fun _ _ _ => Except.ok [[("id", JVal.str "a")]],
        ora0.addFiles, ora0.upload, ora0.finalize, ora0.getLocalCopy,
        ora0.listFiles⟩ : Oracle) none none true).1 "count" =
      some (JVal.num (Int.ofNat 1)) := by
  have h := c7_list_projection
    (⟨ora0.create, ora0.getById, ora0.getByName,
      fun _ _ _ => Except.ok [[("id", JVal.str "a")]],
      ora0.addFiles, ora0.upload, ora0.finalize, ora0.getLocalCopy,
      ora0.listFiles⟩ : Oracle) none none true [[("id", JVal.str "a")]] rfl
  exact h.2.2.1

/-- Counterexample to C1: on the invocation where the wrapped SDK is
unavailable, standard output carries no marker line at all, so it does not
contain exactly one start and one end marker. -/
theorem c1_no_markers_when_unavailable :
    ¬ (countStart (mainRun false ora0 [] "/work" []).1 = 1 ∧
       countEnd (mainRun false ora0 [] "/work" []).1 = 1) := by
  intro hcontra
  have h0 : countStart (mainRun false ora0 [] "/work" []).1 = 0 := rfl
  rw [h0] at hcontra
  exact absurd hcontra.1 (by decide)

/-- C1 amended: on every invocation where the SDK is available and the
command line parses, standard output is exactly the start marker line, the
JSON result envelope, and the end marker line, so each marker occurs exactly
once; on the invocation where the SDK is unavailable, the envelope is printed
bare and no marker line appears. -/
theorem c1_one_marker_pair (ora : Oracle) (fs : FS) (cwd : String)
    (argv : List String) (args : Args)
    (h : parseArgs argv = ParseOutcome.ok args) :
    (∃ env, (mainRun true ora fs cwd argv).1 =
      [OutLine.markerStart, OutLine.jsonBlock env, OutLine.markerEnd]) ∧
    countStart (mainRun true ora fs cwd argv).1 = 1 ∧
    countEnd (mainRun true ora fs cwd argv).1 = 1 ∧
    (mainRun false ora fs cwd argv).1 = [OutLine.jsonLine unavailableEnv] ∧
    countStart (mainRun false ora fs cwd argv).1 = 0 ∧
    countEnd (mainRun false ora fs cwd argv).1 = 0 := by
  refine ⟨⟨(dispatch ora fs cwd args).1, ?_⟩, ?_, ?_, rfl, rfl, rfl⟩ <;>
    simp [mainRun, h, mainWithArgs, countStart, countEnd]

/-- The parsed namespace of the command line used to instantiate the amended
C1 theorem. -/
def args0 : Args :=
  ⟨"list", "https://api.clear.ml", "https://app.clear.ml", "https://files.clear.ml",
   "k", "s", none, none, none, none, none, none, none, none, true⟩

/-- Instantiation of the amended C1 theorem on a concrete command line that
parses. -/
theorem c1_one_marker_pair_witness :
    parseArgs ["list", "--access-key", "k", "--secret-key", "s"] =
      ParseOutcome.ok args0 ∧
    countStart (mainRun true ora0 [] "/work"
      ["list", "--access-key", "k", "--secret-key", "s"]).1 = 1 :=
  ⟨rfl, (c1_one_marker_pair ora0 [] "/work"
    ["list", "--access-key", "k", "--secret-key", "s"] args0 rfl).2.1⟩

/-- C6: on every successful info invocation, the files array of the envelope
is the image of the first 50 entries of the SDK file listing in order, hence
has length at most 50, while fileCount is the full length of the listing,
whatever that length is. -/
theorem c6_info_truncation (ora : Oracle) (w : Option String) (idStr : String)
    (dn dp : Option String) (ds : DatasetHandle) (entries : List String)
    (hid : idStr.isEmpty = false)
    (hget : ora.getById idStr = Except.ok (some ds))
    (hfiles : ora.listFiles = Except.ok entries) :
    getField (get_dataset_info ora w (some idStr) dn dp).1 "success" =
      some (JVal.bool true) ∧
    getField (get_dataset_info ora w (some idStr) dn dp).1 "fileCount" =
      some (JVal.num (Int.ofNat entries.length)) ∧
    getField (get_dataset_info ora w (some idStr) dn dp).1 "files" =
      some (JVal.arr ((entries.take 50).map (fun entry =>
        JVal.obj
          [("path", JVal.str entry),
           ("size", match ds.getFileSize with
                    | some f => JVal.num (f entry)
                    | none => JVal.null)]))) ∧
    (∀ xs, getField (get_dataset_info ora w (some idStr) dn dp).1 "files" =
      some (JVal.arr xs) → xs.length ≤ 50) := by
  have hres : (get_dataset_info ora w (some idStr) dn dp).1 =
      JVal.obj
        [("success", JVal.bool true),
         ("datasetId", JVal.str ds.id),
         ("datasetName", JVal.str ds.name),
         ("project", JVal.str ds.project),
         ("tags", JVal.arr (ds.tags.map JVal.str)),
         ("fileCount", JVal.num (Int.ofNat entries.length)),
         ("files", JVal.arr ((entries.take 50).map (fun entry =>
           JVal.obj
             [("path", JVal.str entry),
              ("size", match ds.getFileSize with
                       | some f => JVal.num (f entry)
                       | none => JVal.null)]))),
         ("isFinalized", JVal.bool ds.isFinal),
         ("webUrl", JVal.str (envGetD w ++ "/datasets/" ++ ds.id))] := by
    simp [get_dataset_info, get_dataset_info_body, falsyS, hid, hget,
      info_with_dataset, hfiles, runCatch]
  refine ⟨?_, ?_, ?_, ?_⟩
  · simp [hres, getField, assocGet]
  · simp [hres, getField, assocGet]
  · simp [hres, getField, assocGet]
  · intro xs hxs
    simp [hres, getField, assocGet] at hxs
    subst hxs
    simp [List.length_map, List.length_take]

/-- Instantiation of the info truncation theorem on a concrete oracle whose
listing is empty. -/
theorem c6_info_truncation_witness :
    getField (get_dataset_info ora0 none (some "d1") none none).1 "fileCount" =
      some (JVal.num (Int.ofNat (List.length ([] : List String)))) :=
  (c6_info_truncation ora0 none "d1" none none handle0 [] rfl rfl rfl).2.1

/-- C2: for each action, invoking it through the dispatch of main without its
required identifying fields prints the envelope with success false and the
specific missing-argument message of that case, exits with code 1, and makes
no SDK call; the list action requires no identifying field, so the claim is
vacuous for it. -/
theorem c2_missing_arguments (ora : Oracle) (fs : FS) (cwd : String) (args : Args) :
    (args.action = "create" → falsyS args.datasetName = true →
      mainWithArgs ora fs cwd args =
        ([OutLine.markerStart,
          OutLine.jsonBlock (failEnv "Dataset name is required for create action"),
          OutLine.markerEnd], 1, [])) ∧
    (args.action = "create" → falsyS args.datasetName = false →
      falsyL args.inputPaths = true →
      mainWithArgs ora fs cwd args =
        ([OutLine.markerStart,
          OutLine.jsonBlock
            (failEnv "At least one input path is required for create action"),
          OutLine.markerEnd], 1, [])) ∧
    (args.action = "version" → falsyS args.datasetId = true →
      falsyS args.datasetName = true →
      mainWithArgs ora fs cwd args =
        ([OutLine.markerStart,
          OutLine.jsonBlock (failEnv "Dataset ID or name is required for version action"),
          OutLine.markerEnd], 1, [])) ∧
    (args.action = "version" →
      (falsyS args.datasetId = false ∨ falsyS args.datasetName = false) →
      falsyL args.inputPaths = true →
      mainWithArgs ora fs cwd args =
        ([OutLine.markerStart,
          OutLine.jsonBlock
            (failEnv "At least one input path is required for version action"),
          OutLine.markerEnd], 1, [])) ∧
    (args.action = "download" → falsyS args.datasetId = true →
      falsyS args.datasetName = true →
      mainWithArgs ora fs cwd args =
        ([OutLine.markerStart,
          OutLine.jsonBlock (failEnv "Either dataset_id or dataset_name is required"),
          OutLine.markerEnd], 1, [])) ∧
    (args.action = "info" → falsyS args.datasetId = true →
      falsyS args.datasetName = true →
      mainWithArgs ora fs cwd args =
        ([OutLine.markerStart,
          OutLine.jsonBlock (failEnv "Either dataset_id or dataset_name is required"),
          OutLine.markerEnd], 1, [])) := by
  refine ⟨?_, ?_, ?_, ?_, ?_, ?_⟩
  · intro ha hn
    simp [mainWithArgs, dispatch, ha, hn, failEnv, getFieldD, getField, assocGet, jTruthy]
  · intro ha hn hp
    simp [mainWithArgs, dispatch, ha, hn, hp, failEnv, getFieldD, getField, assocGet, jTruthy]
  · intro ha hi hn
    simp [mainWithArgs, dispatch, ha, hi, hn, failEnv, getFieldD, getField, assocGet, jTruthy]
  · intro ha hor hp
    cases hor with
    | inl hi =>
      simp [mainWithArgs, dispatch, ha, hi, hp, failEnv, getFieldD, getField, assocGet,
        jTruthy]
    | inr hn =>
      simp [mainWithArgs, dispatch, ha, hn, hp, failEnv, getFieldD, getField, assocGet,
        jTruthy]
  · intro ha hi hn
    simp [mainWithArgs, dispatch, ha, hi, hn, download_dataset, download_dataset_body,
      runCatch, failEnv, getFieldD, getField, assocGet, jTruthy]
  · intro ha hi hn
    simp [mainWithArgs, dispatch, ha, hi, hn, get_dataset_info, get_dataset_info_body,
      runCatch, failEnv, getFieldD, getField, assocGet, jTruthy]

/-- The parsed namespace of a create invocation that carries no dataset
name. -/
def argsNoName : Args :=
  ⟨"create", "https://api.clear.ml", "https://app.clear.ml", "https://files.clear.ml",
   "k", "s", none, none, none, none, none, none, none, none, true⟩

/-- Instantiation of the missing-argument theorem: create without a dataset
name prints the specific envelope, exits 1, and calls no SDK operation. -/
theorem c2_missing_arguments_witness :
    mainWithArgs ora0 [] "/work" argsNoName =
      ([OutLine.markerStart,
        OutLine.jsonBlock (failEnv "Dataset name is required for create action"),
        OutLine.markerEnd], 1, []) :=
  (c2_missing_arguments ora0 [] "/work" argsNoName).1 rfl rfl

/-- Every SDK call the staging loop makes is an add_files call. -/
theorem stage_create_trace_addFiles (ora : Oracle) (fs : FS) (paths : List String)
    (acc : List JVal) (total : Nat) :
    ∀ op ∈ (stage_create ora fs paths acc total).2, ∃ q, op = SdkOp.addFilesOp q := by
  induction paths generalizing acc total with
  | nil =>
    intro op hop
    simp [stage_create] at hop
  | cons p rest ih =>
    intro op hop
    simp only [stage_create] at hop
    cases hl : fsLookup fs p with
    | none => rw [hl] at hop; simp at hop
    | some node =>
      rw [hl] at hop
      cases node with
      | file sz =>
        cases ha : ora.addFiles p with
        | error e => rw [ha] at hop; simp at hop; exact ⟨p, hop⟩
        | ok u =>
          rw [ha] at hop
          simp only [List.mem_cons] at hop
          rcases hop with heq | hmem
          · exact ⟨p, heq⟩
          · exact ih _ _ op hmem
      | dir es =>
        cases ha : ora.addFiles p with
        | error e => rw [ha] at hop; simp at hop; exact ⟨p, hop⟩
        | ok u =>
          rw [ha] at hop
          simp only [List.mem_cons] at hop
          rcases hop with heq | hmem
          · exact ⟨p, heq⟩
          · exact ih _ _ op hmem
      | other => exact ih _ _ op hop

/-- When every add_files call succeeds and some input path does not exist,
the staging loop returns early with the path-does-not-exist envelope of one
of the nonexistent paths. -/
theorem stage_create_bad_path (ora : Oracle) (fs : FS)
    (hadd : ∀ p, ora.addFiles p = Except.ok ()) :
    ∀ (paths : List String) (acc : List JVal) (total : Nat),
      (∃ p ∈ paths, fsLookup fs p = none) →
      ∃ p, p ∈ paths ∧ fsLookup fs p = none ∧
        (stage_create ora fs paths acc total).1 =
          StageRes.ret (failEnv ("Path does not exist: " ++ p)) := by
  intro paths
  induction paths with
  | nil =>
    intro acc total h
    rcases h with ⟨p, hp, _⟩
    simp at hp
  | cons p rest ih =>
    intro acc total h
    cases hl : fsLookup fs p with
    | none =>
      refine ⟨p, by simp, hl, ?_⟩
      simp [stage_create, hl]
    | some node =>
      have hrest : ∃ q ∈ rest, fsLookup fs q = none := by
        rcases h with ⟨q, hq, hqn⟩
        rcases List.mem_cons.mp hq with heq | hmem
        · subst heq; rw [hl] at hqn; exact absurd hqn (by simp)
        · exact ⟨q, hmem, hqn⟩
      cases node with
      | file sz =>
        rcases ih (acc ++ [mkFileRec p (pathName p) sz]) (total + sz) hrest with
          ⟨q, hq, hqn, hst⟩
        refine ⟨q, List.mem_cons_of_mem _ hq, hqn, ?_⟩
        simp [stage_create, hl, hadd p, hst]
      | dir es =>
        rcases ih
          (acc ++ (FSNode.rglob (FSNode.dir es)).map
            (fun q => mkFileRec (p ++ "/" ++ q.1) q.1 q.2))
          (total + sumSizes (FSNode.rglob (FSNode.dir es))) hrest with ⟨q, hq, hqn, hst⟩
        refine ⟨q, List.mem_cons_of_mem _ hq, hqn, ?_⟩
        simp [stage_create, hl, hadd p, hst]
      | other =>
        rcases ih acc total hrest with ⟨q, hq, hqn, hst⟩
        refine ⟨q, List.mem_cons_of_mem _ hq, hqn, ?_⟩
        simp [stage_create, hl, hst]

/-- C4: on a create or version invocation whose input path list contains a
path that does not exist, when the SDK create, lookup and add_files calls
themselves succeed, the action returns success false with an error string
that contains one of the nonexistent paths, and the SDK upload operation is
never invoked. -/
theorem c4_nonexistent_path_aborts (ora : Oracle) (fs : FS) (w : Option String)
    (name : String) (project : Option String) (paths : List String)
    (tags : Option (List String)) (description output_uri : Option String)
    (pid : String) (pnm ppr : Option String) (pd ds : DatasetHandle)
    (hadd : ∀ p, ora.addFiles p = Except.ok ())
    (hcre : ∀ n pr tg d u par, ora.create n pr tg d u par = Except.ok ds)
    (hpid : pid.isEmpty = false)
    (hget : ora.getById pid = Except.ok (some pd))
    (hbad : ∃ p ∈ paths, fsLookup fs p = none) :
    (getField (create_dataset ora fs w name project (some paths) tags description
        output_uri).1 "success" = some (JVal.bool false) ∧
     (∃ p, p ∈ paths ∧ fsLookup fs p = none ∧
       getField (create_dataset ora fs w name project (some paths) tags description
         output_uri).1 "error" =
           some (JVal.str ("Path does not exist: " ++ p)) ∧
       strContains ("Path does not exist: " ++ p) p) ∧
     SdkOp.uploadOp ∉ (create_dataset ora fs w name project (some paths) tags
       description output_uri).2) ∧
    (getField (create_version ora fs w (some pid) pnm ppr (some paths) tags
        description).1 "success" = some (JVal.bool false) ∧
     (∃ p, p ∈ paths ∧ fsLookup fs p = none ∧
       getField (create_version ora fs w (some pid) pnm ppr (some paths) tags
         description).1 "error" =
           some (JVal.str ("Path does not exist: " ++ p)) ∧
       strContains ("Path does not exist: " ++ p) p) ∧
     SdkOp.uploadOp ∉ (create_version ora fs w (some pid) pnm ppr (some paths) tags
       description).2) := by
  have hpe : paths.isEmpty = false := by
    rcases hbad with ⟨p, hp, _⟩
    cases paths with
    | nil => simp at hp
    | cons a l => rfl
  rcases stage_create_bad_path ora fs hadd paths [] 0 hbad with ⟨p, hp, hpn, hst⟩
  have hdef1 : create_dataset ora fs w name project (some paths) tags description
      output_uri =
      (failEnv ("Path does not exist: " ++ p),
       SdkOp.createOp :: (stage_create ora fs paths [] 0).2) := by
    simp [create_dataset, create_dataset_body, runCatch, hcre, falsyL, hpe, hst]
  have hdef2 : create_version ora fs w (some pid) pnm ppr (some paths) tags
      description =
      (failEnv ("Path does not exist: " ++ p),
       SdkOp.getByIdOp :: SdkOp.createOp :: (stage_create ora fs paths [] 0).2) := by
    simp [create_version, create_version_body, create_version_with_parent, runCatch,
      falsyS, hpid, hget, hcre, falsyL, hpe, stage_loops_equal, hst]
  refine ⟨⟨?_, ⟨p, hp, hpn, ?_, strContains_of_append _ _⟩, ?_⟩,
          ⟨?_, ⟨p, hp, hpn, ?_, strContains_of_append _ _⟩, ?_⟩⟩
  · rw [hdef1]; rfl
  · rw [hdef1]; rfl
  · rw [hdef1]
    intro hmem
    simp only [List.mem_cons] at hmem
    rcases hmem with heq | hmem
    · exact absurd heq (by simp)
    · rcases stage_create_trace_addFiles ora fs paths [] 0 _ hmem with ⟨q, hq⟩
      exact absurd hq (by simp)
  · rw [hdef2]; rfl
  · rw [hdef2]; rfl
  · rw [hdef2]
    intro hmem
    simp only [List.mem_cons] at hmem
    rcases hmem with heq | hmem
    · exact absurd heq (by simp)
    · rcases hmem with heq | hmem
      · exact absurd heq (by simp)
      · rcases stage_create_trace_addFiles ora fs paths [] 0 _ hmem with ⟨q, hq⟩
        exact absurd hq (by simp)

/-- Instantiation of the nonexistent-path theorem on a concrete filesystem on
which the single input path does not exist. -/
theorem c4_nonexistent_path_aborts_witness :
    getField (create_dataset ora0 [] none "n" none (some ["/nope"]) none none
      none).1 "success" = some (JVal.bool false) ∧
    SdkOp.uploadOp ∉ (create_dataset ora0 [] none "n" none (some ["/nope"]) none
      none none).2 := by
  have h := c4_nonexistent_path_aborts ora0 [] none "n" none ["/nope"] none none
    none "p1" none none handle0 handle0 (fun p => rfl)
    (fun n pr tg d u par => rfl) rfl rfl ⟨"/nope", by simp, rfl⟩
  exact ⟨h.1.1, h.1.2.2⟩

/-- C3: on a successful create invocation whose input paths are one existing
regular file and one existing directory, filesAdded is one plus the number of
regular files found recursively under the directory, and totalSize is the
size of the file plus the sum of the sizes of the files under the
directory. -/
theorem c3_create_file_and_dir (ora : Oracle) (fs : FS) (w : Option String)
    (name : String) (project : Option String) (tags : Option (List String))
    (description output_uri : Option String) (pf pd : String) (sz : Nat)
    (es : List (String × FSNode))
    (hf : fsLookup fs pf = some (FSNode.file sz))
    (hd : fsLookup fs pd = some (FSNode.dir es))
    (hsucc : getField (create_dataset ora fs w name project (some [pf, pd]) tags
      description output_uri).1 "success" = some (JVal.bool true)) :
    getField (create_dataset ora fs w name project (some [pf, pd]) tags description
      output_uri).1 "filesAdded" =
        some (JVal.num (Int.ofNat (1 + (FSNode.rglob (FSNode.dir es)).length))) ∧
    getField (create_dataset ora fs w name project (some [pf, pd]) tags description
      output_uri).1 "totalSize" =
        some (JVal.num (Int.ofNat (sz + sumSizes (FSNode.rglob (FSNode.dir es))))) := by
  cases hc : ora.create name (orDefaultS project "datasets") (orDefaultL tags)
      (orDefaultS description "Created by ClearPipe") output_uri none with
  | error e =>
    exact absurd hsucc (by
      simp [create_dataset, create_dataset_body, runCatch, hc, getField, assocGet,
        failEnv])
  | ok ds =>
    cases ha1 : ora.addFiles pf with
    | error e =>
      exact absurd hsucc (by
        simp [create_dataset, create_dataset_body, runCatch, hc, stage_create, falsyL,
          hf, ha1, getField, assocGet, failEnv])
    | ok u1 =>
      cases ha2 : ora.addFiles pd with
      | error e =>
        exact absurd hsucc (by
          simp [create_dataset, create_dataset_body, runCatch, hc, stage_create,
            falsyL, hf, hd, ha1, ha2, getField, assocGet, failEnv])
      | ok u2 =>
        cases hu : ora.upload with
        | error e =>
          exact absurd hsucc (by
            simp [create_dataset, create_dataset_body, runCatch, hc, stage_create,
              falsyL, hf, hd, ha1, ha2, hu, getField, assocGet, failEnv])
        | ok u3 =>
          cases hfin : ora.finalize with
          | error e =>
            exact absurd hsucc (by
              simp [create_dataset, create_dataset_body, runCatch, hc, stage_create,
                falsyL, hf, hd, ha1, ha2, hu, hfin, getField, assocGet, failEnv])
          | ok u4 =>
            refine ⟨?_, ?_⟩ <;>
            · simp [create_dataset, create_dataset_body, runCatch, hc, stage_create,
                falsyL, hf, hd, ha1, ha2, hu, hfin, create_success_env, getField,
                assocGet]
              try omega

/-- The concrete filesystem used to instantiate the create counting theorem:
one regular file of size 3 and one directory holding a file of size 2 and a
subdirectory with a file of size 5. -/
def fs0 : FS :=
  [("f.txt", FSNode.file 3),
   ("d", FSNode.dir [("a", FSNode.file 2), ("sub", FSNode.dir [("b", FSNode.file 5)])])]

/-- Instantiation of the create counting theorem: 3 files added, 10 bytes in
total. -/
theorem c3_create_file_and_dir_witness :
    getField (create_dataset ora0 fs0 none "n" none (some ["f.txt", "d"]) none none
      none).1 "filesAdded" = some (JVal.num 3) ∧
    getField (create_dataset ora0 fs0 none "n" none (some ["f.txt", "d"]) none none
      none).1 "totalSize" = some (JVal.num 10) := by
  have h := c3_create_file_and_dir ora0 fs0 none "n" none none none none "f.txt" "d"
    3 [("a", FSNode.file 2), ("sub", FSNode.dir [("b", FSNode.file 5)])] rfl rfl rfl
  have hlen : (FSNode.rglob (FSNode.dir
      [("a", FSNode.file 2), ("sub", FSNode.dir [("b", FSNode.file 5)])])).length = 2 := by
    simp [FSNode.rglob, rglobEntries]
  have hsum : sumSizes (FSNode.rglob (FSNode.dir
      [("a", FSNode.file 2), ("sub", FSNode.dir [("b", FSNode.file 5)])])) = 7 := by
    simp [FSNode.rglob, rglobEntries, sumSizes]
  rw [hlen, hsum] at h
  exact ⟨h.1, h.2⟩

/-- Storing a value-taking option never touches the only-completed field. -/
theorem setFlag_onlyCompleted (st : ParseState) (f v : String) :
    (setFlag st f v).onlyCompleted = st.onlyCompleted := by
  unfold setFlag
  simp only [apply_ite ParseState.onlyCompleted]
  simp

/-- Setting the only-completed field to true is the identity on a state where
it is already true. -/
theorem update_onlyCompleted_self (st : ParseState) (hst : st.onlyCompleted = true) :
    ({ st with onlyCompleted := true } : ParseState) = st := by
  cases st
  simp_all

/-- A finished parse from a state whose only-completed field is true yields a
namespace whose only-completed field is true. -/
theorem parseLoop_nil_onlyCompleted (st : ParseState) (args : Args)
    (hst : st.onlyCompleted = true) (h : parseLoop [] st = ParseOutcome.ok args) :
    args.onlyCompleted = true := by
  unfold parseLoop at h
  split at h
  · injection h with h2
    subst h2
    exact hst
  · exact absurd h (by simp)

/-- The only-completed field stays true through the whole scan. -/
theorem parseLoop_onlyCompleted_aux :
    ∀ (n : Nat) (ts : List String), ts.length ≤ n →
      ∀ (st : ParseState) (args : Args), st.onlyCompleted = true →
        parseLoop ts st = ParseOutcome.ok args → args.onlyCompleted = true := by
  intro n
  induction n with
  | zero =>
    intro ts hlen st args hst h
    have hts : ts = [] := List.eq_nil_of_length_eq_zero (Nat.le_zero.mp hlen)
    subst hts
    exact parseLoop_nil_onlyCompleted st args hst h
  | succ n ih =>
    intro ts hlen st args hst h
    cases ts with
    | nil => exact parseLoop_nil_onlyCompleted st args hst h
    | cons t rest =>
      unfold parseLoop at h
      repeat' split at h
      all_goals
        first
        | exact absurd h (by simp)
        | exact ih _ (by simp only [List.length_cons] at hlen; omega) _ args
            (by first
                | rfl
                | exact hst
                | (rw [setFlag_onlyCompleted]; exact hst)) h

/-- Scanning the only-completed flag from a state whose only-completed field
is already true is a no-op. -/
theorem parseLoop_flag_step (r : List String) (st : ParseState)
    (hst : st.onlyCompleted = true) :
    parseLoop ("--only-completed" :: r) st = parseLoop r st := by
  conv_lhs => rw [parseLoop.eq_def]
  simp [update_onlyCompleted_self st hst]

/-- Inserting the only-completed flag anywhere into a command line that
parses successfully with it leaves the parse result unchanged. -/
theorem parseLoop_flag_insert :
    ∀ (n : Nat) (l : List String), l.length ≤ n →
      ∀ (r : List String) (st : ParseState) (args : Args), st.onlyCompleted = true →
        parseLoop (l ++ "--only-completed" :: r) st = ParseOutcome.ok args →
        parseLoop (l ++ r) st = ParseOutcome.ok args := by
  intro n
  induction n with
  | zero =>
    intro l hlen r st args hst h
    have hl : l = [] := List.eq_nil_of_length_eq_zero (Nat.le_zero.mp hlen)
    subst hl
    simp only [List.nil_append] at h ⊢
    rwa [parseLoop_flag_step r st hst] at h
  | succ n ih =>
    intro l hlen r st args hst h
    cases l with
    | nil =>
      simp only [List.nil_append] at h ⊢
      rwa [parseLoop_flag_step r st hst] at h
    | cons t l2 =>
      simp only [List.cons_append] at h ⊢
      unfold parseLoop at h ⊢
      by_cases h1 : (t == "-h" || t == "--help") = true
      · rw [if_pos h1] at h ⊢
        exact h
      · rw [if_neg h1] at h ⊢
        by_cases h2 : (t == "--only-completed") = true
        · rw [if_pos h2] at h ⊢
          exact ih l2 (by simp only [List.length_cons] at hlen; omega) r _ args rfl h
        · rw [if_neg h2] at h ⊢
          by_cases h3 : isValueFlag t = true
          · rw [if_pos h3] at h ⊢
            cases l2 with
            | nil =>
              simp only [List.nil_append] at h ⊢
              exact absurd h
                (by simp [show startsWithDash "--only-completed" = true from rfl])
            | cons v l3 =>
              simp only [List.cons_append] at h ⊢
              by_cases h4 : startsWithDash v = true
              · simp only [h4] at h
                exact absurd h (by simp)
              · simp only [h4, Bool.false_eq_true, if_false] at h ⊢
                exact ih l3 (by simp only [List.length_cons] at hlen; omega) r _ args
                  (by rw [setFlag_onlyCompleted]; exact hst) h
          · rw [if_neg h3] at h ⊢
            by_cases h5 : startsWithDash t = true
            · rw [if_pos h5] at h ⊢
              exact h
            · rw [if_neg h5] at h ⊢
              cases hact : st.action with
              | none =>
                simp only [hact] at h ⊢
                by_cases h6 : (t == "create" || t == "version" || t == "download" ||
                    t == "list" || t == "info") = true
                · rw [if_pos h6] at h ⊢
                  exact ih l2 (by simp only [List.length_cons] at hlen; omega) r _ args
                    hst h
                · rw [if_neg h6] at h ⊢
                  exact h
              | some a =>
                simp only [hact] at h ⊢
                exact h

/-- C10: the only-completed flag is store_true with default True, so every
successfully parsed command line carries onlyCompleted true; on the list
action the single SDK listing call therefore always receives True for
only_completed; and inserting the flag into a command line that parses
leaves the whole behavior of the invocation unchanged. -/
theorem c10_only_completed_constant :
    (∀ argv args, parseArgs argv = ParseOutcome.ok args → args.onlyCompleted = true) ∧
    (∀ (ora : Oracle) (fs : FS) (cwd : String) (args : Args), args.action = "list" →
      (dispatch ora fs cwd args).2 =
        [SdkOp.listDatasetsOp args.datasetProject args.tags args.onlyCompleted]) ∧
    (∀ argv args, parseArgs argv = ParseOutcome.ok args → args.action = "list" →
      ∀ (ora : Oracle) (fs : FS) (cwd : String),
        (dispatch ora fs cwd args).2 =
          [SdkOp.listDatasetsOp args.datasetProject args.tags true]) ∧
    (∀ (ora : Oracle) (fs : FS) (cwd : String) (l r : List String) (args : Args),
      parseArgs (l ++ "--only-completed" :: r) = ParseOutcome.ok args →
      mainRun true ora fs cwd (l ++ "--only-completed" :: r) =
        mainRun true ora fs cwd (l ++ r)) := by
  have hoc : ∀ argv args, parseArgs argv = ParseOutcome.ok args →
      args.onlyCompleted = true := fun argv args h =>
    parseLoop_onlyCompleted_aux argv.length argv le_rfl initParseState args rfl h
  have htrace : ∀ (ora : Oracle) (fs : FS) (cwd : String) (args : Args),
      args.action = "list" →
      (dispatch ora fs cwd args).2 =
        [SdkOp.listDatasetsOp args.datasetProject args.tags args.onlyCompleted] := by
    intro ora fs cwd args ha
    cases ho : ora.listDatasets args.datasetProject args.tags args.onlyCompleted with
    | error e => simp [dispatch, ha, list_datasets, list_datasets_body, runCatch, ho]
    | ok recs => simp [dispatch, ha, list_datasets, list_datasets_body, runCatch, ho]
  refine ⟨hoc, htrace, ?_, ?_⟩
  · intro argv args h ha ora fs cwd
    rw [htrace ora fs cwd args ha, hoc argv args h]
  · intro ora fs cwd l r args h
    have h2 : parseArgs (l ++ r) = ParseOutcome.ok args :=
      parseLoop_flag_insert l.length l le_rfl r initParseState args rfl h
    simp [mainRun, h, h2]

/-- Instantiation of the only-completed theorem: a concrete command line with
the flag parses to the same namespace and behaves identically to the one
without it, and its listing call receives True. -/
theorem c10_only_completed_constant_witness :
    args0.onlyCompleted = true ∧
    mainRun true ora0 [] "/work"
      ["list", "--only-completed", "--access-key", "k", "--secret-key", "s"] =
      mainRun true ora0 [] "/work" ["list", "--access-key", "k", "--secret-key", "s"] ∧
    (dispatch ora0 [] "/work" args0).2 = [SdkOp.listDatasetsOp none none true] :=
  ⟨c10_only_completed_constant.1 ["list", "--access-key", "k", "--secret-key", "s"]
     args0 rfl,
   c10_only_completed_constant.2.2.2 ora0 [] "/work" ["list"]
     ["--access-key", "k", "--secret-key", "s"] args0 rfl,
   c10_only_completed_constant.2.2.1
     ["list", "--access-key", "k", "--secret-key", "s"] args0 rfl rfl ora0 [] "/work"⟩

end Clearpipe
